import Mathlib

/-!
Verification of the claims transformer of `src/app.py` (Broker Claims
Dashboard).  The logical core of the program is the `load_data` function
(lines 17-43): it coerces the two date columns with
`pd.to_datetime(..., errors=coerce)`, coerces the four monetary columns
with `pd.to_numeric(..., errors=coerce).fillna(0)`, and derives
`TotalIncurred`, `TotalPaid` and `LossYear`.  The aggregates are computed at
lines 50-56 (KPIs), 94 (`cause_summary`), 113 (`status_counts`),
129 (`location_summary`) and 148 (`year_summary`).

The embedding below models a raw CSV cell, the numeric and date coercions,
one normalized record per row, and each aggregate as a pure function over
the list of records.  Monetary amounts are rationals.
-/

/-- A raw cell of the input table: a number (a numerically-typed CSV
column), a string, or a blank/missing value (pandas `NaN`). -/
inductive RawCell where
  | num (q : ℚ)
  | str (s : String)
  | blank
deriving DecidableEq, Repr

/-- A raw input row, one per line of `synthetic_claims_data.csv`, with the
columns the program reads. -/
structure RawRow where
  ClaimNumber : String
  ClaimStatus : Option String
  DateOfLoss : RawCell
  DateReported : RawCell
  CauseOfLoss : String
  Location : String
  PaidIndemnity : RawCell
  PaidExpense : RawCell
  ReserveIndemnity : RawCell
  ReserveExpense : RawCell
deriving DecidableEq, Repr

/-- Whitespace test for trimming, matching the characters `str.strip()` and
pandas remove around a field. -/
def isSpaceChar (c : Char) : Bool :=
  c = ' ' || c = '\t' || c = '\n' || c = '\r'

/-- Removes leading and trailing whitespace from a character list. -/
def trimChars (cs : List Char) : List Char :=
  ((cs.dropWhile isSpaceChar).reverse.dropWhile isSpaceChar).reverse

/-- Splits a character list on a separator character; like `String.splitOn`,
the empty list yields one empty group. -/
def splitOnChar (sep : Char) (cs : List Char) : List (List Char) :=
  cs.foldr
    (fun c acc =>
      match acc with
      | [] => [[c]]
      | g :: gs => if c = sep then [] :: g :: gs else (c :: g) :: gs)
    [[]]

/-- Reads a string of decimal digits as a natural number; fails on any
non-digit character.  The empty list reads as `0` (callers guard
emptiness). -/
def parseNatDigits (cs : List Char) : Option ℕ :=
  cs.foldlM (fun acc c => if c.isDigit then some (acc * 10 + (c.toNat - 48)) else none) 0

/-- Numeric read of a trimmed character list: an optional sign followed by
decimal digits with at most one decimal point. -/
def parseDecimalChars (cs : List Char) : Option ℚ :=
  let sgn : ℚ :=
    match cs with
    | c :: _ => if c = '-' then -1 else 1
    | [] => 1
  let body : List Char :=
    match cs with
    | c :: rest => if c = '-' || c = '+' then rest else cs
    | [] => cs
  match splitOnChar '.' body with
  | [ip] =>
    if ip.isEmpty then none
    else (parseNatDigits ip).map (fun n => sgn * (n : ℚ))
  | [ip, fp] =>
    if ip.isEmpty && fp.isEmpty then none
    else
      match parseNatDigits ip, parseNatDigits fp with
      | some n, some f => some (sgn * ((n : ℚ) + (f : ℚ) / (10 : ℚ) ^ fp.length))
      | _, _ => none
  | _ => none

/-- Model of `pd.to_numeric(..., errors=coerce)` on a string: an optional
sign followed by decimal digits with at most one decimal point, with
surrounding whitespace ignored.  Any other string coerces to `NaN`, i.e.
`none`. -/
def parseDecimalString (s : String) : Option ℚ :=
  parseDecimalChars (trimChars s.toList)

/-- Numeric coercion of a raw cell, as `pd.to_numeric(col, errors=coerce)`
(src/app.py line 29): a numeric cell keeps its value, a blank cell is `NaN`
(`none`), and a string cell parses as a decimal number or coerces to `NaN`. -/
def toNumericCoerce : RawCell → Option ℚ
  | .num q => some q
  | .str s => parseDecimalString s
  | .blank => none

/-- The full monetary normalization of src/app.py line 29:
`pd.to_numeric(df[col], errors=coerce).fillna(0)`. -/
def moneyValue (c : RawCell) : ℚ :=
  (toNumericCoerce c).getD 0

/-- A calendar date. -/
structure Date where
  year : ℤ
  month : ℕ
  day : ℕ
deriving DecidableEq, Repr

/-- Gregorian leap-year test. -/
def isLeapYear (y : ℤ) : Bool :=
  (y % 4 == 0 && y % 100 != 0) || (y % 400 == 0)

/-- Number of days in a month of a given year. -/
def daysInMonth (y : ℤ) (m : ℕ) : ℕ :=
  if m = 2 then (if isLeapYear y then 29 else 28)
  else if m = 4 ∨ m = 6 ∨ m = 9 ∨ m = 11 then 30
  else 31

/-- Model of `pd.to_datetime(..., errors=coerce)` on a string: an ISO
`YYYY-MM-DD` date with valid month and day ranges; anything else coerces to
`NaT`, i.e. `none`. -/
def parseDateString (s : String) : Option Date :=
  match splitOnChar '-' (trimChars s.toList) with
  | [ys, ms, ds] =>
    if ys.isEmpty || ms.isEmpty || ds.isEmpty then none
    else
      match parseNatDigits ys, parseNatDigits ms, parseNatDigits ds with
      | some y, some m, some d =>
        if 1 ≤ m ∧ m ≤ 12 ∧ 1 ≤ d ∧ d ≤ daysInMonth (y : ℤ) m then
          some ⟨(y : ℤ), m, d⟩
        else none
      | _, _, _ => none
  | _ => none

/-- Date coercion of a raw cell (src/app.py lines 23-24): a blank cell is
`NaT`; a string cell parses as a date or coerces to `NaT`.  Numeric cells
are treated as unparseable in this model (the CSV date columns are
strings). -/
def parseDateCell : RawCell → Option Date
  | .str s => parseDateString s
  | _ => none

/-- A normalized claim record as produced by `load_data`
(src/app.py lines 17-43): coerced dates, coerced monetary fields, and the
derived columns `TotalIncurred`, `TotalPaid` and `LossYear`. -/
structure Record where
  ClaimNumber : String
  ClaimStatus : Option String
  DateOfLoss : Option Date
  DateReported : Option Date
  CauseOfLoss : String
  Location : String
  PaidIndemnity : ℚ
  PaidExpense : ℚ
  ReserveIndemnity : ℚ
  ReserveExpense : ℚ
  TotalIncurred : ℚ
  TotalPaid : ℚ
  LossYear : Option ℤ
deriving DecidableEq, Repr

/-- Normalization of one row, following src/app.py lines 23-41:
dates via `pd.to_datetime(errors=coerce)`, monetary columns via
`pd.to_numeric(errors=coerce).fillna(0)`,
`TotalIncurred = PaidIndemnity + PaidExpense + ReserveIndemnity +
ReserveExpense`, `TotalPaid = PaidIndemnity + PaidExpense`, and
`LossYear = DateOfLoss.dt.year` (null when the date is `NaT`). -/
def normalizeRow (r : RawRow) : Record :=
  let pi := moneyValue r.PaidIndemnity
  let pe := moneyValue r.PaidExpense
  let ri := moneyValue r.ReserveIndemnity
  let re := moneyValue r.ReserveExpense
  let dol := parseDateCell r.DateOfLoss
  { ClaimNumber := r.ClaimNumber
    ClaimStatus := r.ClaimStatus
    DateOfLoss := dol
    DateReported := parseDateCell r.DateReported
    CauseOfLoss := r.CauseOfLoss
    Location := r.Location
    PaidIndemnity := pi
    PaidExpense := pe
    ReserveIndemnity := ri
    ReserveExpense := re
    TotalIncurred := pi + pe + ri + re
    TotalPaid := pi + pe
    LossYear := dol.map (·.year) }

/-- The whole load step `load_data` applied to the rows of the CSV:
each row is normalized independently (the pandas column operations of
src/app.py lines 23-41 are elementwise). -/
def load_and_normalize (rows : List RawRow) : List Record :=
  rows.map normalizeRow

/-- `df[TotalIncurred].sum()` (src/app.py line 50). -/
def total_incurred (recs : List Record) : ℚ :=
  (recs.map (·.TotalIncurred)).sum

/-- `df[TotalPaid].sum()` (src/app.py line 51). -/
def total_paid (recs : List Record) : ℚ :=
  (recs.map (·.TotalPaid)).sum

/-- `len(df[df[ClaimStatus] == Open])` (src/app.py line 52).  A missing
status compares unequal to the string `Open`. -/
def total_open_claims (recs : List Record) : ℕ :=
  (recs.filter (fun r => r.ClaimStatus = some "Open")).length

/-- `df[df[ClaimStatus] == Open][TotalIncurred].sum()`
(src/app.py line 55). -/
def open_claims_incurred (recs : List Record) : ℚ :=
  ((recs.filter (fun r => r.ClaimStatus = some "Open")).map (·.TotalIncurred)).sum

/-- `open_claims_incurred / total_open_claims if total_open_claims > 0 else 0`
(src/app.py line 56). -/
def avg_cost_per_open_claim (recs : List Record) : ℚ :=
  if 0 < total_open_claims recs then
    open_claims_incurred recs / (total_open_claims recs : ℚ)
  else 0

/-- The four aggregate KPIs displayed by the dashboard. -/
structure KPIs where
  TotalIncurred : ℚ
  TotalPaid : ℚ
  OpenClaimCount : ℕ
  AvgCostPerOpenClaim : ℚ
deriving DecidableEq, Repr

/-- The KPI computation of src/app.py lines 50-56. -/
def kpis (recs : List Record) : KPIs :=
  { TotalIncurred := total_incurred recs
    TotalPaid := total_paid recs
    OpenClaimCount := total_open_claims recs
    AvgCostPerOpenClaim := avg_cost_per_open_claim recs }

/-- The descending-by-sum comparison of `sort_values(ascending=False)`. -/
def descBySum (a b : String × ℚ) : Bool :=
  decide (b.2 ≤ a.2)

/-- The per-group sums of TotalIncurred, one pair per distinct key value in
first-seen order. -/
def groupSums (key : Record → String) (recs : List Record) : List (String × ℚ) :=
  (recs.map key).dedup.map
    (fun k => (k, ((recs.filter (fun r => key r = k)).map (·.TotalIncurred)).sum))

/-- `df.groupby(key)[TotalIncurred].sum().sort_values(ascending=False).head(n)`
(src/app.py lines 94 and 129): the per-group sums sorted descending by sum,
first `n` entries kept. -/
def top_n_by_group (key : Record → String) (n : ℕ) (recs : List Record) :
    List (String × ℚ) :=
  ((groupSums key recs).mergeSort descBySum).take n

/-- Top 5 causes of loss by total incurred (src/app.py line 94). -/
def cause_summary (recs : List Record) : List (String × ℚ) :=
  top_n_by_group (·.CauseOfLoss) 5 recs

/-- Top 5 locations by total incurred (src/app.py line 129). -/
def location_summary (recs : List Record) : List (String × ℚ) :=
  top_n_by_group (·.Location) 5 recs

/-- `df.groupby(LossYear)[TotalIncurred].sum().sort_index()`
(src/app.py line 148): pandas `groupby` drops null keys, so records with a
null `LossYear` contribute to no group; group keys are sorted ascending. -/
def year_summary (recs : List Record) : List (ℤ × ℚ) :=
  let years := ((recs.filterMap (·.LossYear)).dedup).mergeSort (fun a b => decide (a ≤ b))
  years.map
    (fun y => (y, ((recs.filter (fun r => r.LossYear = some y)).map (·.TotalIncurred)).sum))

/-- `df[ClaimStatus].value_counts()` (src/app.py line 113): occurrence
counts of each non-null status, sorted descending by count (null values are
dropped by `value_counts`). -/
def status_counts (recs : List Record) : List (String × ℕ) :=
  let vals := recs.filterMap (·.ClaimStatus)
  ((vals.dedup.map (fun s => (s, vals.count s))).mergeSort (fun a b => decide (b.2 ≤ a.2)))

/-- Total of the counts of a `status_counts` result. -/
def sumCounts (l : List (String × ℕ)) : ℕ :=
  (l.map (·.2)).sum

/-- Outcome of one run of the application (src/app.py lines 46-208): either
the rendered report, the `FileNotFoundError` notice of line 203, or the
generic processing-error notice of line 206. -/
inductive RunOutcome where
  | report (recs : List Record) (k : KPIs) (cause loc : List (String × ℚ))
      (years : List (ℤ × ℚ)) (statuses : List (String × ℕ))
  | dataSourceNotFound
  | processingError (msg : String)
deriving DecidableEq, Repr

/-- The try/except structure of src/app.py lines 46-208.  The data source is
`none` when `synthetic_claims_data.csv` cannot be located (raising
`FileNotFoundError` in the code) and `some rows` otherwise; with a present
source the load and every aggregate are total, so the report is produced. -/
def runApp (source : Option (List RawRow)) : RunOutcome :=
  match source with
  | none => .dataSourceNotFound
  | some rows =>
    let recs := load_and_normalize rows
    .report recs (kpis recs) (cause_summary recs) (location_summary recs)
      (year_summary recs) (status_counts recs)

/-- Row A of the section-8 example of the specification: paid indemnity
1000, paid expense 200, no reserves, status Open. -/
def exRowA : RawRow :=
  { ClaimNumber := "A", ClaimStatus := some "Open", DateOfLoss := .str "2021-03-05",
    DateReported := .str "2021-03-10", CauseOfLoss := "Fire", Location := "NY",
    PaidIndemnity := .num 1000, PaidExpense := .num 200,
    ReserveIndemnity := .num 0, ReserveExpense := .num 0 }

/-- Row B of the section-8 example of the specification: paid indemnity
500, reserve indemnity 300, status Closed. -/
def exRowB : RawRow :=
  { ClaimNumber := "B", ClaimStatus := some "Closed", DateOfLoss := .str "2020-07-15",
    DateReported := .str "2020-07-20", CauseOfLoss := "Wind", Location := "TX",
    PaidIndemnity := .num 500, PaidExpense := .num 0,
    ReserveIndemnity := .num 300, ReserveExpense := .num 0 }

/-- A row whose four monetary cells are all non-numeric, blank or garbage,
and whose DateOfLoss does not parse. -/
def exBadRow : RawRow :=
  { ClaimNumber := "C", ClaimStatus := none, DateOfLoss := .str "not a date",
    DateReported := .blank, CauseOfLoss := "Hail", Location := "FL",
    PaidIndemnity := .str "N/A", PaidExpense := .blank,
    ReserveIndemnity := .str "abc", ReserveExpense := .str "" }

/-- C1: for any input row, each of the four monetary columns normalizes to
0 whenever its raw cell coerces to NaN under `pd.to_numeric(errors=coerce)`
(i.e. is non-numeric, blank or missing); the TotalIncurred and TotalPaid of
the produced record are then the rational sums of the coerced fields, hence
always defined (never null). -/
theorem C1_nonnumeric_money_normalizes_to_zero (r : RawRow) :
    (toNumericCoerce r.PaidIndemnity = none → (normalizeRow r).PaidIndemnity = 0) ∧
    (toNumericCoerce r.PaidExpense = none → (normalizeRow r).PaidExpense = 0) ∧
    (toNumericCoerce r.ReserveIndemnity = none → (normalizeRow r).ReserveIndemnity = 0) ∧
    (toNumericCoerce r.ReserveExpense = none → (normalizeRow r).ReserveExpense = 0) ∧
    (normalizeRow r).TotalIncurred =
      (normalizeRow r).PaidIndemnity + (normalizeRow r).PaidExpense +
      (normalizeRow r).ReserveIndemnity + (normalizeRow r).ReserveExpense ∧
    (normalizeRow r).TotalPaid = (normalizeRow r).PaidIndemnity + (normalizeRow r).PaidExpense := by
  refine ⟨fun h => ?_, fun h => ?_, fun h => ?_, fun h => ?_, ?_, ?_⟩ <;>
    simp [normalizeRow, moneyValue] <;> simp [h]

/-- Witness for C1 at a concrete row whose four monetary cells are
respectively the string "N/A", a blank, the string "abc" and the empty
string: all four normalize to 0. -/
theorem C1_nonnumeric_money_normalizes_to_zero_witness :
    (normalizeRow exBadRow).PaidIndemnity = 0 ∧
    (normalizeRow exBadRow).PaidExpense = 0 ∧
    (normalizeRow exBadRow).ReserveIndemnity = 0 ∧
    (normalizeRow exBadRow).ReserveExpense = 0 :=
  ⟨(C1_nonnumeric_money_normalizes_to_zero exBadRow).1 rfl,
   (C1_nonnumeric_money_normalizes_to_zero exBadRow).2.1 rfl,
   (C1_nonnumeric_money_normalizes_to_zero exBadRow).2.2.1 rfl,
   (C1_nonnumeric_money_normalizes_to_zero exBadRow).2.2.2.1 rfl⟩

/-- C2: every record produced by `load_and_normalize` satisfies
TotalIncurred = PaidIndemnity + PaidExpense + ReserveIndemnity +
ReserveExpense and TotalPaid = PaidIndemnity + PaidExpense, with the
summands the coerced numeric fields of that record. -/
theorem C2_derived_totals (rows : List RawRow) (rec : Record)
    (hmem : rec ∈ load_and_normalize rows) :
    rec.TotalIncurred =
      rec.PaidIndemnity + rec.PaidExpense + rec.ReserveIndemnity + rec.ReserveExpense ∧
    rec.TotalPaid = rec.PaidIndemnity + rec.PaidExpense := by
  obtain ⟨r, -, rfl⟩ := List.mem_map.mp hmem
  exact ⟨by simp [normalizeRow, moneyValue], by simp [normalizeRow, moneyValue]⟩

/-- Witness for C2 at the one-row input [exRowA]. -/
theorem C2_derived_totals_witness :
    (normalizeRow exRowA).TotalIncurred =
      (normalizeRow exRowA).PaidIndemnity + (normalizeRow exRowA).PaidExpense +
      (normalizeRow exRowA).ReserveIndemnity + (normalizeRow exRowA).ReserveExpense ∧
    (normalizeRow exRowA).TotalPaid =
      (normalizeRow exRowA).PaidIndemnity + (normalizeRow exRowA).PaidExpense :=
  C2_derived_totals [exRowA] (normalizeRow exRowA) (by simp [load_and_normalize])

/-- C9: every record produced by the load step satisfies
TotalIncurred = TotalPaid + ReserveIndemnity + ReserveExpense, so whenever
both coerced reserve fields are non-negative, TotalPaid does not exceed
TotalIncurred. -/
theorem C9_totalpaid_le_totalincurred (r : RawRow) :
    (normalizeRow r).TotalIncurred =
      (normalizeRow r).TotalPaid + (normalizeRow r).ReserveIndemnity +
      (normalizeRow r).ReserveExpense ∧
    (0 ≤ (normalizeRow r).ReserveIndemnity → 0 ≤ (normalizeRow r).ReserveExpense →
      (normalizeRow r).TotalPaid ≤ (normalizeRow r).TotalIncurred) := by
  constructor
  · simp [normalizeRow, moneyValue]
  · intro h1 h2
    have heq : (normalizeRow r).TotalIncurred =
        (normalizeRow r).TotalPaid + (normalizeRow r).ReserveIndemnity +
        (normalizeRow r).ReserveExpense := by
      simp [normalizeRow, moneyValue]
    rw [heq]
    linarith

/-- Witness for C9 at example row A, whose reserves are both 0. -/
theorem C9_totalpaid_le_totalincurred_witness :
    (normalizeRow exRowA).TotalPaid ≤ (normalizeRow exRowA).TotalIncurred :=
  (C9_totalpaid_le_totalincurred exRowA).2
    (by norm_num [normalizeRow, moneyValue, toNumericCoerce, exRowA])
    (by norm_num [normalizeRow, moneyValue, toNumericCoerce, exRowA])

/-- C3: the KPI computation yields AvgCostPerOpenClaim = 0 when the open
claim count is 0, and the sum of TotalIncurred over Open records divided by
the open claim count when that count is positive; division is total in the
embedding, so no division-by-zero fault is possible. -/
theorem C3_avg_cost_no_div_by_zero (recs : List Record) :
    ((kpis recs).OpenClaimCount = 0 ∧ (kpis recs).AvgCostPerOpenClaim = 0) ∨
    (0 < (kpis recs).OpenClaimCount ∧
      (kpis recs).AvgCostPerOpenClaim =
        ((recs.filter (fun r => r.ClaimStatus = some "Open")).map (·.TotalIncurred)).sum /
          ((kpis recs).OpenClaimCount : ℚ)) := by
  rcases Nat.eq_zero_or_pos (total_open_claims recs) with h | h
  · left
    constructor
    · simpa [kpis] using h
    · simp [kpis, avg_cost_per_open_claim, h]
  · right
    constructor
    · simpa [kpis] using h
    · simp [kpis, avg_cost_per_open_claim, open_claims_incurred, h]

/-- C6: the KPIs are the sum of TotalIncurred over all records, the sum of
TotalPaid over all records, and the count of records whose status is Open;
on the two-row example of section 8 of the specification the open claim
count is 1 and the average cost per open claim is 1200. -/
theorem C6_kpi_sums_and_example :
    (∀ recs : List Record,
      (kpis recs).TotalIncurred = (recs.map (·.TotalIncurred)).sum ∧
      (kpis recs).TotalPaid = (recs.map (·.TotalPaid)).sum ∧
      (kpis recs).OpenClaimCount =
        (recs.filter (fun r => r.ClaimStatus = some "Open")).length) ∧
    (kpis (load_and_normalize [exRowA, exRowB])).OpenClaimCount = 1 ∧
    (kpis (load_and_normalize [exRowA, exRowB])).AvgCostPerOpenClaim = 1200 ∧
    (load_and_normalize [exRowA, exRowB]).map (·.TotalIncurred) = [1200, 800] ∧
    (load_and_normalize [exRowA, exRowB]).map (·.TotalPaid) = [1200, 500] := by
  refine ⟨fun recs => ⟨rfl, rfl, rfl⟩, rfl, ?_, ?_, ?_⟩
  · norm_num +decide [kpis, avg_cost_per_open_claim, total_open_claims,
      open_claims_incurred, load_and_normalize, normalizeRow, moneyValue,
      toNumericCoerce, parseDateCell, exRowA, exRowB, List.filter_cons]
  · norm_num [load_and_normalize, normalizeRow, moneyValue, toNumericCoerce, exRowA, exRowB]
  · norm_num [load_and_normalize, normalizeRow, moneyValue, toNumericCoerce, exRowA, exRowB]

/-- C7: with a present data source the run always produces the report (the
load and aggregate computations are total, so per-row malformed data never
aborts the run), while a missing data source produces the distinguished
data-source-not-found outcome, which differs from the generic
processing-error outcome. -/
theorem C7_failure_taxonomy :
    (∀ rows : List RawRow,
      runApp (some rows) =
        RunOutcome.report (load_and_normalize rows) (kpis (load_and_normalize rows))
          (cause_summary (load_and_normalize rows)) (location_summary (load_and_normalize rows))
          (year_summary (load_and_normalize rows)) (status_counts (load_and_normalize rows))) ∧
    runApp none = RunOutcome.dataSourceNotFound ∧
    (∀ msg, RunOutcome.dataSourceNotFound ≠ RunOutcome.processingError msg) ∧
    (∀ rows msg, runApp (some rows) ≠ RunOutcome.processingError msg) ∧
    (∀ rows, runApp (some rows) ≠ RunOutcome.dataSourceNotFound) := by
  refine ⟨fun rows => rfl, rfl, fun msg => by simp, fun rows msg => by simp [runApp],
    fun rows => by simp [runApp]⟩

/-- C8: the load step is deterministic and per-row: the record produced for
a row is a function of that row alone, unaffected by the surrounding rows
or their order, and running the load twice on the same input produces
identical record lists; permuting the input rows permutes the output
records correspondingly. -/
theorem C8_deterministic_rowwise :
    (∀ rows : List RawRow, load_and_normalize rows = rows.map normalizeRow) ∧
    (∀ pre post : List RawRow, ∀ r : RawRow,
      load_and_normalize (pre ++ r :: post) =
        load_and_normalize pre ++ normalizeRow r :: load_and_normalize post) ∧
    (∀ rows₁ rows₂ : List RawRow, rows₁.Perm rows₂ →
      (load_and_normalize rows₁).Perm (load_and_normalize rows₂)) ∧
    (∀ rows : List RawRow, load_and_normalize rows = load_and_normalize rows) := by
  refine ⟨fun rows => rfl, fun pre post r => by simp [load_and_normalize],
    fun rows₁ rows₂ h => h.map normalizeRow, fun rows => rfl⟩

/-- Witness for C8: swapping the two example rows permutes the two output
records. -/
theorem C8_deterministic_rowwise_witness :
    (load_and_normalize [exRowA, exRowB]).Perm (load_and_normalize [exRowB, exRowA]) :=
  C8_deterministic_rowwise.2.2.1 [exRowA, exRowB] [exRowB, exRowA]
    (List.Perm.swap exRowB exRowA [])


theorem descBySum_trans (a b c : String × ℚ) :
    descBySum a b → descBySum b c → descBySum a c := by
  simp only [descBySum, decide_eq_true_eq]
  exact fun h1 h2 => le_trans h2 h1

theorem descBySum_total (a b : String × ℚ) : descBySum a b || descBySum b a := by
  simp only [descBySum, Bool.or_eq_true, decide_eq_true_eq]
  exact le_total b.2 a.2

theorem top_n_by_group_length_le (key : Record → String) (n : ℕ) (recs : List Record) :
    (top_n_by_group key n recs).length ≤ n := by
  unfold top_n_by_group
  exact List.length_take_le n _

theorem top_n_by_group_sorted (key : Record → String) (n : ℕ) (recs : List Record) :
    List.Pairwise (fun a b => b.2 ≤ a.2) (top_n_by_group key n recs) := by
  have hs : List.Pairwise (fun a b => descBySum a b = true)
      ((groupSums key recs).mergeSort descBySum) :=
    List.sorted_mergeSort descBySum_trans descBySum_total (groupSums key recs)
  have ht : List.Pairwise (fun a b => descBySum a b = true) (top_n_by_group key n recs) :=
    hs.sublist (List.take_sublist n _)
  exact ht.imp (fun h => of_decide_eq_true h)

theorem groupSums_keys_eq (key : Record → String) (recs : List Record) :
    (groupSums key recs).map Prod.fst = (recs.map key).dedup := by
  simp [groupSums, List.map_map, Function.comp_def]

theorem top_n_by_group_keys_nodup (key : Record → String) (n : ℕ) (recs : List Record) :
    ((top_n_by_group key n recs).map Prod.fst).Nodup := by
  have h1 : ((groupSums key recs).map Prod.fst).Nodup := by
    rw [groupSums_keys_eq]
    exact (recs.map key).nodup_dedup
  have hperm := (List.mergeSort_perm (groupSums key recs) descBySum).map Prod.fst
  have h2 := (hperm.nodup_iff).mpr h1
  have hsub : List.Sublist ((top_n_by_group key n recs).map Prod.fst)
      (((groupSums key recs).mergeSort descBySum).map Prod.fst) :=
    (List.take_sublist n _).map Prod.fst
  exact h2.sublist hsub

/-- C5: with n = 5, the group summaries by CauseOfLoss and by Location each
return at most 5 pairs, one pair per distinct group value, sorted
descending by the per-group sum of TotalIncurred. -/
theorem C5_top5_bounded_sorted (recs : List Record) :
    (cause_summary recs).length ≤ 5 ∧
    List.Pairwise (fun a b => b.2 ≤ a.2) (cause_summary recs) ∧
    ((cause_summary recs).map Prod.fst).Nodup ∧
    (location_summary recs).length ≤ 5 ∧
    List.Pairwise (fun a b => b.2 ≤ a.2) (location_summary recs) ∧
    ((location_summary recs).map Prod.fst).Nodup :=
  ⟨top_n_by_group_length_le _ 5 recs, top_n_by_group_sorted _ 5 recs,
   top_n_by_group_keys_nodup _ 5 recs, top_n_by_group_length_le _ 5 recs,
   top_n_by_group_sorted _ 5 recs, top_n_by_group_keys_nodup _ 5 recs⟩

theorem filterMap_lossYear_filter (recs : List Record) :
    (recs.filter (fun r => r.LossYear.isSome)).filterMap (fun r => r.LossYear) =
      recs.filterMap (fun r => r.LossYear) := by
  induction recs with
  | nil => simp
  | cons r rs ih => cases h : r.LossYear <;> simp [List.filter_cons, h, ih]

theorem filter_lossYear_some (recs : List Record) (y : ℤ) :
    (recs.filter (fun r => r.LossYear.isSome)).filter (fun r => r.LossYear = some y) =
      recs.filter (fun r => r.LossYear = some y) := by
  induction recs with
  | nil => simp
  | cons r rs ih => cases h : r.LossYear <;> simp [List.filter_cons, h, ih]

theorem year_summary_drops_null (recs : List Record) :
    year_summary (recs.filter (fun r => r.LossYear.isSome)) = year_summary recs := by
  unfold year_summary
  rw [filterMap_lossYear_filter]
  refine List.map_congr_left (fun y hy => ?_)
  rw [filter_lossYear_some]

theorem ascYear_trans (a b c : ℤ) :
    decide (a ≤ b) = true → decide (b ≤ c) = true → decide (a ≤ c) = true := by
  simp only [decide_eq_true_eq]
  exact le_trans

theorem ascYear_total (a b : ℤ) : (decide (a ≤ b) || decide (b ≤ a)) = true := by
  simp only [Bool.or_eq_true, decide_eq_true_eq]
  exact le_total a b

theorem year_summary_sorted (recs : List Record) :
    List.Pairwise (fun a b => a.1 < b.1) (year_summary recs) := by
  unfold year_summary
  rw [List.pairwise_map]
  have hle : List.Pairwise (fun a b : ℤ => decide (a ≤ b) = true)
      (((recs.filterMap (fun r => r.LossYear)).dedup).mergeSort (fun a b => decide (a ≤ b))) :=
    List.sorted_mergeSort ascYear_trans ascYear_total _
  have hnd : (((recs.filterMap (fun r => r.LossYear)).dedup).mergeSort
      (fun a b => decide (a ≤ b))).Nodup :=
    ((List.mergeSort_perm _ _).nodup_iff).mpr (List.nodup_dedup _)
  have hboth := hle.and hnd
  exact hboth.imp (fun h => lt_of_le_of_ne (of_decide_eq_true h.1) h.2)

/-- C4: a row whose DateOfLoss does not parse as a calendar date gets a
null LossYear (the load is total, so nothing is raised), and the year
summary is unchanged when records with null LossYear are removed — they
contribute to no group — while its pairs are ordered strictly ascending by
year. -/
theorem C4_unparseable_date_excluded (r : RawRow) (recs : List Record)
    (h : parseDateCell r.DateOfLoss = none) :
    (normalizeRow r).LossYear = none ∧
    year_summary (recs.filter (fun x => x.LossYear.isSome)) = year_summary recs ∧
    List.Pairwise (fun a b => a.1 < b.1) (year_summary recs) := by
  refine ⟨?_, year_summary_drops_null recs, year_summary_sorted recs⟩
  simp [normalizeRow, h]

/-- Witness for C4 at the concrete row whose DateOfLoss is the string
"not a date", with the one-record list produced from it. -/
theorem C4_unparseable_date_excluded_witness :
    (normalizeRow exBadRow).LossYear = none ∧
    year_summary ((load_and_normalize [exBadRow]).filter (fun x => x.LossYear.isSome)) =
      year_summary (load_and_normalize [exBadRow]) ∧
    List.Pairwise (fun a b => a.1 < b.1) (year_summary (load_and_normalize [exBadRow])) :=
  C4_unparseable_date_excluded exBadRow (load_and_normalize [exBadRow]) rfl

theorem sumCounts_status_counts (recs : List Record) :
    sumCounts (status_counts recs) = (recs.filterMap (fun r => r.ClaimStatus)).length := by
  simp only [status_counts, sumCounts]
  have hperm := (List.mergeSort_perm
    ((recs.filterMap (fun r => r.ClaimStatus)).dedup.map
      (fun s => (s, (recs.filterMap (fun r => r.ClaimStatus)).count s)))
    (fun a b => decide (b.2 ≤ a.2))).map Prod.snd
  rw [hperm.sum_eq, List.map_map]
  simpa [Function.comp_def] using
    List.sum_map_count_dedup_eq_length (recs.filterMap (fun r => r.ClaimStatus))

theorem length_filterMap_status (recs : List Record) :
    (recs.filterMap (fun r => r.ClaimStatus)).length =
      (recs.filter (fun r => r.ClaimStatus.isSome)).length := by
  induction recs with
  | nil => simp
  | cons r rs ih => cases h : r.ClaimStatus <;> simp [List.filter_cons, h, ih]

/-- C10: a record with a missing ClaimStatus contributes to no entry of the
status breakdown and is not counted among open claims, and the sum of the
status-breakdown counts equals the number of records with a present status;
on the concrete one-record list with a null status the counts sum to
strictly less than the record count. -/
theorem C10_null_status_excluded (recs : List Record) (r : Record)
    (h : r.ClaimStatus = none) :
    status_counts (r :: recs) = status_counts recs ∧
    total_open_claims (r :: recs) = total_open_claims recs ∧
    sumCounts (status_counts recs) =
      (recs.filter (fun x => x.ClaimStatus.isSome)).length ∧
    sumCounts (status_counts (load_and_normalize [exBadRow])) <
      (load_and_normalize [exBadRow]).length := by
  refine ⟨?_, ?_, ?_, ?_⟩
  · simp [status_counts, h]
  · simp [total_open_claims, List.filter_cons, h]
  · rw [sumCounts_status_counts, length_filterMap_status]
  · simp [load_and_normalize, status_counts, sumCounts, normalizeRow, exBadRow]

/-- Witness for C10 at the empty record list and the record produced from
the example row whose status is missing. -/
theorem C10_null_status_excluded_witness :
    status_counts [normalizeRow exBadRow] = status_counts [] ∧
    total_open_claims [normalizeRow exBadRow] = total_open_claims [] ∧
    sumCounts (status_counts []) =
      (([] : List Record).filter (fun x => x.ClaimStatus.isSome)).length ∧
    sumCounts (status_counts (load_and_normalize [exBadRow])) <
      (load_and_normalize [exBadRow]).length :=
  C10_null_status_excluded [] (normalizeRow exBadRow) rfl
